import Mathlib

/-!
Verification development for the self-throttling Google API client layer:
rate limiter (token bucket with exponential backoff), error taxonomy
(`createApiError`), the base client request/retry/refresh pipeline
(`request` / `handleError`), auto-paginating listings, and the binary
download path.  All machine integers and times are modelled as `Nat` / `Rat`
(the source is JavaScript; token counts and delays are arithmetic on
numbers, modelled exactly over the rationals).  Fallible operations return
explicit outcome values.  JSON parsing (`JSON.parse` inside
`parseErrorResponse`) is a platform primitive and is threaded through as an
explicit `parse : String → Option GoogleApiErrorResponse` parameter; it
never throws (`Option` mirrors the `try/catch` returning `null`).
-/

/-! ## Constants (src/frontend/src/lib/google-api/constants.ts) -/

/-- Retry configuration `RETRY_CONFIG.maxRetries` (constants.ts). -/
def RETRY_CONFIG.maxRetries : Nat := 3

/-- Retry configuration `RETRY_CONFIG.initialBackoffMs` (constants.ts). -/
def RETRY_CONFIG.initialBackoffMs : ℚ := 1000

/-- Retry configuration `RETRY_CONFIG.maxBackoffMs` (constants.ts). -/
def RETRY_CONFIG.maxBackoffMs : ℚ := 30000

/-- Retry configuration `RETRY_CONFIG.backoffMultiplier` (constants.ts). -/
def RETRY_CONFIG.backoffMultiplier : ℚ := 2

/-- Retry configuration `RETRY_CONFIG.jitterFactor` (constants.ts, 0.1). -/
def RETRY_CONFIG.jitterFactor : ℚ := 1/10

/-- Status codes `HTTP_STATUS` (constants.ts). -/
def HTTP_STATUS.UNAUTHORIZED : Nat := 401

def HTTP_STATUS.FORBIDDEN : Nat := 403

def HTTP_STATUS.NOT_FOUND : Nat := 404

def HTTP_STATUS.RATE_LIMITED : Nat := 429

def HTTP_STATUS.SERVER_ERROR : Nat := 500

def HTTP_STATUS.SERVICE_UNAVAILABLE : Nat := 503

/-- The API type tag (`ApiType` in constants.ts). -/
inductive ApiType where
  | drive
  | sheets
  | calendar
deriving DecidableEq, Repr

/-- Rate limit configuration (`RateLimitConfig` in constants.ts).
Numbers are modelled as rationals. -/
structure RateLimitConfig where
  requestsPerMinute : ℚ
  requestsPerUserPerMinute : ℚ
  burstSize : ℚ
  windowMs : ℚ
deriving DecidableEq, Repr

/-! ## Error taxonomy (src/frontend/src/lib/google-api/types.ts) -/

/-- The runtime class (`name` field) of an error thrown by the client layer. -/
inductive ApiErrorName where
  | googleApiError
  | tokenExpired
  | rateLimit
  | permissionDenied
  | notFound
deriving DecidableEq, Repr

/-- Model of the `GoogleApiError` class hierarchy (types.ts).  The TS
subclasses are flattened into one structure: `name` records the concrete
class, and subclass-specific fields (`retryAfterMs`) are `Option`s that the
other constructors leave `none`. -/
structure GoogleApiError where
  name : ApiErrorName
  status : Nat
  message : String
  retryAfterMs : Option Nat := none
  apiType : Option ApiType := none
  responseBody : Option String := none
deriving DecidableEq, Repr

/-- Constructor of `TokenExpiredError` (types.ts line 59): status 401,
default message `"Access token has expired"`, no apiType/body recorded. -/
def TokenExpiredError (message : String := "Access token has expired") : GoogleApiError :=
  { name := .tokenExpired, status := 401, message := message }

/-- Constructor of `RateLimitError` (types.ts line 69): status 429, carries
an optional suggested retry delay in ms. -/
def RateLimitError (retryAfterMs : Option Nat)
    (message : String := "Rate limit exceeded") : GoogleApiError :=
  { name := .rateLimit, status := 429, message := message, retryAfterMs := retryAfterMs }

/-- Constructor of `PermissionDeniedError` (types.ts line 83): status 403. -/
def PermissionDeniedError (message : String := "Permission denied") : GoogleApiError :=
  { name := .permissionDenied, status := 403, message := message }

/-- Constructor of `NotFoundError` (types.ts line 93): status 404; the
message is built from the resource name and optional id, never from the
response body. -/
def NotFoundError (resource : String) (id : Option String) : GoogleApiError :=
  { name := .notFound, status := 404,
    message :=
      match id with
      | some i => resource ++ " not found: " ++ i
      | none => resource ++ " not found" }

/-- One entry of `error.errors` in a parsed Google error response body. -/
structure GoogleApiErrorItem where
  domain : String
  reason : String
  message : String
deriving DecidableEq, Repr

/-- The `error` object of a parsed Google error response body. -/
structure GoogleApiErrorBody where
  code : Nat
  message : String
  status : Option String := none
  errors : Option (List GoogleApiErrorItem) := none
deriving DecidableEq, Repr

/-- A parsed Google error response body (`GoogleApiErrorResponse`, types.ts). -/
structure GoogleApiErrorResponse where
  error : GoogleApiErrorBody
deriving DecidableEq, Repr

/-- First maximal run of decimal digits in a character list, mirroring the
JS regular expression match `/(\d+)/` used by `createApiError` for 429. -/
def firstDigitRunAux : List Char → Option (List Char)
  | [] => none
  | c :: cs =>
    if c.isDigit then some (c :: cs.takeWhile Char.isDigit)
    else firstDigitRunAux cs

/-- First maximal digit run of a string (`errorMessage?.match(/(\d+)/)?.[1]`). -/
def firstDigitRun (s : String) : Option String :=
  (firstDigitRunAux s.toList).map List.asString

/-- Decimal value of a digit-only string, mirroring `parseInt(s, 10)` on the
digit run extracted by `firstDigitRun`. -/
def parseIntDigits (s : String) : Nat :=
  s.toList.foldl (fun n c => 10 * n + (c.toNat - 48)) 0

/-- Model of `createApiError` (types.ts lines 166-194).  `parse` stands for
`parseErrorResponse` (a `JSON.parse` wrapper whose failure yields `none`);
it is a parameter because JSON parsing is a platform primitive.  The
`switch` on the status is rendered as an `if` chain with the same cases. -/
def createApiError (parse : String → Option GoogleApiErrorResponse)
    (status : Nat) (body : String) (apiType : Option ApiType := none) :
    GoogleApiError :=
  let parsed := parse body
  let message := (parsed.map (fun p => p.error.message)).getD ("API error: " ++ toString status)
  if status = 401 then TokenExpiredError message
  else if status = 403 then PermissionDeniedError message
  else if status = 404 then NotFoundError "Resource" none
  else if status = 429 then
    let errorMessage := ((parsed.bind (fun p => p.error.errors)).bind List.head?).map
      (fun e => e.message)
    let retryMs := errorMessage.bind firstDigitRun
    RateLimitError (retryMs.map (fun d => parseIntDigits d * 1000)) message
  else
    { name := .googleApiError, status := status, message := message,
      apiType := apiType, responseBody := some body }

/-! ## Claim C9 -/

/-- C9: `createApiError` at status 404 always returns the fixed message
"Resource not found", discarding any message parsed from the body, while
the 401, 403, 429 and generic (unclassified-status) branches carry the
parsed body message through to the returned error. -/
theorem c9_not_found_fixed_message
    (parse : String → Option GoogleApiErrorResponse) (body : String)
    (apiType : Option ApiType) :
    (createApiError parse 404 body apiType).message = "Resource not found"
    ∧ (∀ resp : GoogleApiErrorResponse, parse body = some resp →
        (createApiError parse 401 body apiType).message = resp.error.message
        ∧ (createApiError parse 403 body apiType).message = resp.error.message
        ∧ (createApiError parse 429 body apiType).message = resp.error.message
        ∧ ∀ s : Nat, s ≠ 401 → s ≠ 403 → s ≠ 404 → s ≠ 429 →
            (createApiError parse s body apiType).message = resp.error.message) := by
  constructor
  · simp [createApiError, NotFoundError]
  · intro resp hresp
    refine ⟨?_, ?_, ?_, ?_⟩
    · simp [createApiError, hresp, TokenExpiredError]
    · simp [createApiError, hresp, PermissionDeniedError]
    · simp [createApiError, hresp, RateLimitError]
    · intro s h1 h3 h4 h9
      simp [createApiError, hresp, h1, h3, h4, h9]

/-- Concrete parse function used by witnesses: recognizes one fixed body. -/
def parseFixed : String → Option GoogleApiErrorResponse := fun s =>
  if s = "bodyX" then
    some { error := { code := 403, message := "X" } }
  else none

/-- Witness for C9 at a concrete body whose parse yields message "X". -/
theorem c9_not_found_fixed_message_witness :
    (createApiError parseFixed 404 "bodyX" none).message = "Resource not found"
    ∧ (createApiError parseFixed 403 "bodyX" none).message = "X"
    ∧ (createApiError parseFixed 500 "bodyX" none).message = "X" :=
  ⟨(c9_not_found_fixed_message parseFixed "bodyX" none).1,
   ((c9_not_found_fixed_message parseFixed "bodyX" none).2
      { error := { code := 403, message := "X" } } (by decide)).2.1,
   ((c9_not_found_fixed_message parseFixed "bodyX" none).2
      { error := { code := 403, message := "X" } } (by decide)).2.2.2 500
      (by decide) (by decide) (by decide) (by decide)⟩

/-! ## RateLimiter (src/frontend/src/lib/google-api/rate-limiter.ts)

Time is an explicit rational parameter `now` (milliseconds); every method
that reads `Date.now()` in the source takes `now` as an argument.  The
`Math.random()` draw inside `backoff` is an explicit parameter `rand`.
`sleep(ms)` advances time by `max 0 ms` (a `setTimeout` with a negative
delay fires immediately; real time never moves backward). -/

/-- Mutable state of the limiter (`RateLimiterState`, rate-limiter.ts). -/
structure RateLimiterState where
  tokens : ℚ
  lastRefill : ℚ
  backoffUntil : ℚ
deriving DecidableEq, Repr

/-- The `RateLimiter` class: its config, state and consecutive-backoff
counter (`currentBackoffAttempt`). -/
structure RateLimiter where
  config : RateLimitConfig
  state : RateLimiterState
  currentBackoffAttempt : Nat
deriving DecidableEq, Repr

/-- The constructor: computes nothing but the full-bucket initial state
(`tokens = burstSize`, `lastRefill = Date.now()`, `backoffUntil = 0`). -/
def RateLimiter.new (config : RateLimitConfig) (now : ℚ) : RateLimiter :=
  { config := config,
    state := { tokens := config.burstSize, lastRefill := now, backoffUntil := 0 },
    currentBackoffAttempt := 0 }

/-- Replenishment rate `tokensPerMs = requestsPerUserPerMinute / windowMs`
(computed in the constructor; a pure function of the immutable config). -/
def RateLimiter.tokensPerMs (rl : RateLimiter) : ℚ :=
  rl.config.requestsPerUserPerMinute / rl.config.windowMs

/-- `refillTokens` (rate-limiter.ts lines 664-674): add
`elapsed * tokensPerMs` capped at `burstSize`, and stamp `lastRefill`. -/
def RateLimiter.refillTokens (rl : RateLimiter) (now : ℚ) : RateLimiter :=
  let elapsed := now - rl.state.lastRefill
  let tokensToAdd := elapsed * rl.tokensPerMs
  { rl with state := { rl.state with
      tokens := min rl.config.burstSize (rl.state.tokens + tokensToAdd),
      lastRefill := now } }

/-- `isInBackoff`: `Date.now() < backoffUntil`. -/
def RateLimiter.isInBackoff (rl : RateLimiter) (now : ℚ) : Bool :=
  decide (now < rl.state.backoffUntil)

/-- `getRemainingBackoff`: `max(0, backoffUntil - Date.now())`. -/
def RateLimiter.getRemainingBackoff (rl : RateLimiter) (now : ℚ) : ℚ :=
  max 0 (rl.state.backoffUntil - now)

/-- `tryAcquire` (rate-limiter.ts lines 582-595): non-blocking; returns
whether a token was consumed together with the updated limiter. -/
def RateLimiter.tryAcquire (rl : RateLimiter) (now : ℚ) : Bool × RateLimiter :=
  if rl.isInBackoff now then (false, rl)
  else
    let rl := rl.refillTokens now
    if 1 ≤ rl.state.tokens then
      (true, { rl with state := { rl.state with tokens := rl.state.tokens - 1 } })
    else (false, rl)

/-- `calculateBackoffDelay` (rate-limiter.ts lines 687-692):
`min(initialBackoffMs * backoffMultiplier ^ attempt, maxBackoffMs)`. -/
def RateLimiter.calculateBackoffDelay (rl : RateLimiter) : ℚ :=
  min (RETRY_CONFIG.initialBackoffMs *
        RETRY_CONFIG.backoffMultiplier ^ rl.currentBackoffAttempt)
    RETRY_CONFIG.maxBackoffMs

/-- `calculateWaitTime`: `Math.ceil((1 - tokens) / tokensPerMs)`. -/
def RateLimiter.calculateWaitTime (rl : RateLimiter) : ℚ :=
  ((⌈(1 - rl.state.tokens) / rl.tokensPerMs⌉ : ℤ) : ℚ)

/-- `backoff(retryAfterMs?)` (rate-limiter.ts lines 603-612): increment the
attempt counter, take the hint if supplied else the exponential delay, add
jitter `baseDelay * jitterFactor * Math.random()`, stamp `backoffUntil`.
Returns the total delay slept together with the updated limiter. -/
def RateLimiter.backoff (rl : RateLimiter) (now : ℚ)
    (retryAfterMs : Option ℚ) (rand : ℚ) : ℚ × RateLimiter :=
  let rl := { rl with currentBackoffAttempt := rl.currentBackoffAttempt + 1 }
  let baseDelay := retryAfterMs.getD rl.calculateBackoffDelay
  let jitter := baseDelay * RETRY_CONFIG.jitterFactor * rand
  let totalDelay := baseDelay + jitter
  (totalDelay,
   { rl with state := { rl.state with backoffUntil := now + totalDelay } })

/-- `resetBackoff`: zero the attempt counter and clear `backoffUntil`. -/
def RateLimiter.resetBackoff (rl : RateLimiter) : RateLimiter :=
  { rl with currentBackoffAttempt := 0,
            state := { rl.state with backoffUntil := 0 } }

/-- `getTokenCount`: refills, then reads the token count (mutating read). -/
def RateLimiter.getTokenCount (rl : RateLimiter) (now : ℚ) : ℚ × RateLimiter :=
  let rl := rl.refillTokens now
  (rl.state.tokens, rl)

/-- The read-only diagnostics record returned by `getStats`. -/
structure RateLimiterStats where
  tokens : ℚ
  isInBackoff : Bool
  remainingBackoffMs : ℚ
  backoffAttempt : Nat
deriving DecidableEq, Repr

/-- `getStats`: assembles the diagnostics (the `getTokenCount` read refills,
so the limiter state is threaded through). -/
def RateLimiter.getStats (rl : RateLimiter) (now : ℚ) :
    RateLimiterStats × RateLimiter :=
  let t := rl.getTokenCount now
  ({ tokens := t.1,
     isInBackoff := rl.isInBackoff now,
     remainingBackoffMs := rl.getRemainingBackoff now,
     backoffAttempt := rl.currentBackoffAttempt }, t.2)

/-- `acquire` (rate-limiter.ts lines 556-575), with explicit fuel bounding
the number of sleep-and-retry iterations (the source recurses until a token
is available).  Each iteration: wait out any active backoff
(`waitForBackoff` sleeps `getRemainingBackoff`), refill, consume a token if
one is available, else sleep `calculateWaitTime` and retry.  Returns the
time at which it resolved, the updated limiter, and whether a token was
actually consumed (false only when fuel ran out). -/
def RateLimiter.acquireGo : Nat → RateLimiter → ℚ → ℚ × RateLimiter × Bool
  | 0, rl, now => (now, rl, false)
  | fuel + 1, rl, now =>
    let now := now + rl.getRemainingBackoff now
    let rl := rl.refillTokens now
    if 1 ≤ rl.state.tokens then
      (now, { rl with state := { rl.state with tokens := rl.state.tokens - 1 } }, true)
    else
      let now := now + max 0 rl.calculateWaitTime
      RateLimiter.acquireGo fuel rl now

/-! ## Base client pipeline (src/frontend/src/lib/google-api/client.ts)

The transport is modelled as the list of responses the server would give to
successive `fetch` calls of this logical request; each (re-)issued request
consumes the next response.  The mutually recursive `request`/`handleError`
pair of the source is rendered as a single structural recursion on the
remaining responses: `handleError` is a pure step that either terminates
(`done`) or asks for the request to be re-issued (`retry`), exactly
matching its `throw` / `return this.request(...)` branches.  The refresh
callback `onTokenExpired` is modelled as a function from the number of
refreshes already performed to the new token.  Rate limiter interactions of
the pipeline are recorded as instrumentation: the arguments of each
`rateLimiter.backoff(...)` call (`backoffArgs`) and the number of transport
calls (`fetches`). -/

/-- A transport response: HTTP status and raw body text. -/
structure Response where
  status : Nat
  body : String
deriving DecidableEq, Repr

/-- The `response.ok` predicate of the fetch API: status in 200-299. -/
def Response.ok (r : Response) : Prop := 200 ≤ r.status ∧ r.status ≤ 299

instance (r : Response) : Decidable r.ok :=
  inferInstanceAs (Decidable (200 ≤ r.status ∧ r.status ≤ 299))

/-- The mutable per-client state of `GoogleApiClient` relevant to the
pipeline (`accessToken`, `retryCount`), plus instrumentation counters. -/
structure GoogleApiClientState where
  accessToken : String
  retryCount : Nat
  refreshCount : Nat
  backoffArgs : List (Option Nat)
  fetches : Nat
deriving DecidableEq, Repr

/-- A freshly constructed client's pipeline state (`retryCount = 0`). -/
def GoogleApiClient.init (accessToken : String) : GoogleApiClientState :=
  { accessToken := accessToken, retryCount := 0, refreshCount := 0,
    backoffArgs := [], fetches := 0 }

/-- What a logical request can end in. -/
inductive RequestOutcome where
  | success
  | thrown : GoogleApiError → RequestOutcome
  | transportExhausted
deriving DecidableEq, Repr

/-- Result of one `handleError` step: terminate with an outcome, or
re-issue the request with the updated client state. -/
inductive HandleErrorResult where
  | done : RequestOutcome → GoogleApiClientState → HandleErrorResult
  | retry : GoogleApiClientState → HandleErrorResult
deriving DecidableEq, Repr

/-- Model of `GoogleApiClient.handleError` (client.ts lines 98-145).
Branches in source order: 401 (refresh if a callback exists, else throw
`TokenExpiredError`); 429 (throw `RateLimitError` once
`retryCount >= maxRetries`, zeroing the counter, else increment and
backoff-retry); 500/503 (same budget, terminal error from
`createApiError`); all other statuses throw `createApiError` immediately
without touching the counter. -/
def handleError (parse : String → Option GoogleApiErrorResponse)
    (onTokenExpired : Option (Nat → String)) (apiType : ApiType)
    (st : GoogleApiClientState) (status : Nat) (body : String) :
    HandleErrorResult :=
  if status = HTTP_STATUS.UNAUTHORIZED then
    match onTokenExpired with
    | some refresh =>
      .retry { st with accessToken := refresh st.refreshCount,
                       refreshCount := st.refreshCount + 1 }
    | none => .done (.thrown (TokenExpiredError)) st
  else if status = HTTP_STATUS.RATE_LIMITED then
    if RETRY_CONFIG.maxRetries ≤ st.retryCount then
      .done (.thrown (RateLimitError none "Max retries exceeded for rate limit"))
        { st with retryCount := 0 }
    else
      .retry { st with retryCount := st.retryCount + 1,
                       backoffArgs := st.backoffArgs ++ [none] }
  else if status = HTTP_STATUS.SERVER_ERROR ∨ status = HTTP_STATUS.SERVICE_UNAVAILABLE then
    if RETRY_CONFIG.maxRetries ≤ st.retryCount then
      .done (.thrown (createApiError parse status body (some apiType)))
        { st with retryCount := 0 }
    else
      .retry { st with retryCount := st.retryCount + 1,
                       backoffArgs := st.backoffArgs ++ [none] }
  else
    .done (.thrown (createApiError parse status body (some apiType))) st

/-- Model of `GoogleApiClient.request` (client.ts lines 61-93): acquire a
token, fetch (consume the next response), on `ok` reset the backoff and the
retry counter and succeed; otherwise classify through `handleError` and
either terminate or re-issue against the remaining responses. -/
def GoogleApiClient.request (parse : String → Option GoogleApiErrorResponse)
    (onTokenExpired : Option (Nat → String)) (apiType : ApiType) :
    GoogleApiClientState → List Response → RequestOutcome × GoogleApiClientState
  | st, [] => (.transportExhausted, st)
  | st, r :: rest =>
    if r.ok then (.success, { st with fetches := st.fetches + 1, retryCount := 0 })
    else
      match handleError parse onTokenExpired apiType
          { st with fetches := st.fetches + 1 } r.status r.body with
      | .done out st' => (out, st')
      | .retry st' => GoogleApiClient.request parse onTokenExpired apiType st' rest

/-- A parse function that never recognizes a structured body. -/
def parseNone : String → Option GoogleApiErrorResponse := fun _ => none

/-! ## Claim C1 -/

/-- C1 (failing input): with a refresh callback configured and a transport
answering 401 to both the original request and the refreshed retry, the
pipeline invokes the refresh callback a second time and re-issues the
request again (here running the two-response transport dry), instead of
throwing `TokenExpiredError` after the first refreshed retry fails: the
recursion in `handleError` is unbounded while the callback exists. -/
theorem c1_refresh_loop_on_repeated_401 :
    GoogleApiClient.request parseNone (some (fun _ => "refreshed")) .drive
      (GoogleApiClient.init "tok") [⟨401, ""⟩, ⟨401, ""⟩]
    = (.transportExhausted,
       { accessToken := "refreshed", retryCount := 0, refreshCount := 2,
         backoffArgs := [], fetches := 2 }) := rfl

/-! ## Claim C2 -/

/-- A 429 body whose parsed `error.errors[0].message` holds the numeric
retry hint "7" (seconds). -/
def bodyHint : String := "rate body"

def respHint : GoogleApiErrorResponse :=
  { error := { code := 429, message := "Rate Limit Exceeded",
               errors := some [{ domain := "usageLimits",
                                 reason := "rateLimitExceeded",
                                 message := "Retry after 7 seconds" }] } }

def parseHint : String → Option GoogleApiErrorResponse := fun s =>
  if s = bodyHint then some respHint else none

/-- C2 (counterexample): the response body parses to a 7000 ms retry hint
(`createApiError` would extract it), yet the pipeline's backoff-and-retry
step invoked `rateLimiter.backoff()` with no argument (`none`), so the
server-suggested delay is never propagated. -/
theorem c2_backoff_hint_counterexample :
    (createApiError parseHint 429 bodyHint none).retryAfterMs = some 7000
    ∧ (GoogleApiClient.request parseHint none .drive (GoogleApiClient.init "t")
        [⟨429, bodyHint⟩, ⟨200, ""⟩]).2.backoffArgs = [none] :=
  ⟨rfl, rfl⟩

/-- Helper: `handleError` leaves the recorded backoff arguments unchanged
or appends exactly one hint-free (`none`) call. -/
theorem handleError_backoffArgs (parse : String → Option GoogleApiErrorResponse)
    (cb : Option (Nat → String)) (apiType : ApiType)
    (st : GoogleApiClientState) (status : Nat) (body : String) :
    (∀ out st', handleError parse cb apiType st status body = .done out st' →
        st'.backoffArgs = st.backoffArgs)
    ∧ (∀ st', handleError parse cb apiType st status body = .retry st' →
        st'.backoffArgs = st.backoffArgs
        ∨ st'.backoffArgs = st.backoffArgs ++ [none]) := by
  unfold handleError
  constructor
  · intro out st' hE
    cases cb <;> split_ifs at hE <;>
      first
        | exact HandleErrorResult.noConfusion hE
        | (injection hE with h1 h2; subst h2; rfl)
  · intro st' hE
    cases cb <;> split_ifs at hE <;>
      first
        | exact HandleErrorResult.noConfusion hE
        | (injection hE with h1; subst h1; exact Or.inl rfl)
        | (injection hE with h1; subst h1; exact Or.inr rfl)

/-- Helper: starting from a state whose recorded backoff arguments are all
`none`, every backoff the pipeline performs is again hint-free. -/
theorem request_backoffArgs_all_none (parse : String → Option GoogleApiErrorResponse)
    (cb : Option (Nat → String)) (apiType : ApiType) :
    ∀ (responses : List Response) (st : GoogleApiClientState),
      st.backoffArgs.all Option.isNone = true →
      ((GoogleApiClient.request parse cb apiType st responses).2.backoffArgs).all
        Option.isNone = true
  | [], _, h => h
  | r :: rest, st, h => by
    simp only [GoogleApiClient.request]
    split
    · exact h
    · cases hh : handleError parse cb apiType { st with fetches := st.fetches + 1 }
        r.status r.body with
      | done out st' =>
        simp only [hh]
        have := (handleError_backoffArgs parse cb apiType
          { st with fetches := st.fetches + 1 } r.status r.body).1 out st' hh
        rw [this]
        exact h
      | retry st' =>
        simp only [hh]
        refine request_backoffArgs_all_none parse cb apiType rest st' ?_
        rcases (handleError_backoffArgs parse cb apiType
          { st with fetches := st.fetches + 1 } r.status r.body).2 st' hh with h1 | h1
        · rw [h1]; exact h
        · have hap : (st.backoffArgs ++ [none]).all Option.isNone = true := by
            rw [List.all_append, h]; rfl
          rw [h1]; exact hap

/-- C2 (amended): for every transport trace, every `rateLimiter.backoff`
call made by the pipeline carries no argument — the parsed retry hint of a
429 body is never propagated to the backoff wait, which therefore always
follows the exponential schedule.  (The hint only ever appears inside the
`RateLimitError` value that `createApiError` builds for status 429.) -/
theorem c2_backoff_called_without_hint (parse : String → Option GoogleApiErrorResponse)
    (cb : Option (Nat → String)) (apiType : ApiType) (accessToken : String)
    (responses : List Response) :
    ((GoogleApiClient.request parse cb apiType (GoogleApiClient.init accessToken)
        responses).2.backoffArgs).all Option.isNone = true :=
  request_backoffArgs_all_none parse cb apiType responses _ rfl

/-! ## Claim C3 -/

/-- C3 (counterexample): a 429 (consuming one retry) followed by a
terminal 404 throws `NotFoundError` while leaving the retry counter at 1,
not 0 — the "other errors" branch of `handleError` does not reset it, so
the next logical request does not begin with a zero counter. -/
theorem c3_counter_not_reset_counterexample :
    GoogleApiClient.request parseNone none .drive (GoogleApiClient.init "t")
      [⟨429, ""⟩, ⟨404, ""⟩]
    = (.thrown (NotFoundError "Resource" none),
       { accessToken := "t", retryCount := 1, refreshCount := 0,
         backoffArgs := [none], fetches := 2 }) := rfl

/-- Helper: a terminal `handleError` outcome is always a thrown error. -/
theorem handleError_done_thrown (parse : String → Option GoogleApiErrorResponse)
    (cb : Option (Nat → String)) (apiType : ApiType)
    (st : GoogleApiClientState) (status : Nat) (body : String)
    (out : RequestOutcome) (st' : GoogleApiClientState) :
    handleError parse cb apiType st status body = .done out st' →
    ∃ e, out = .thrown e := by
  unfold handleError
  intro hE
  cases cb <;> split_ifs at hE <;>
    first
      | exact HandleErrorResult.noConfusion hE
      | (injection hE with h1 h2; exact ⟨_, h1.symm⟩)

/-- C3 (amended): the retry counter is reset to zero before a throw exactly
in the budget-exhausted branches (status 429, 500 or 503 with the budget
spent); every other terminal throw (401 without a callback, 403, 404, any
unclassified status) leaves the whole client state - counter included -
unchanged.  A successful completion also resets the counter to zero. -/
theorem c3_counter_reset_amended (parse : String → Option GoogleApiErrorResponse)
    (cb : Option (Nat → String)) (apiType : ApiType) :
    (∀ (st : GoogleApiClientState) (status : Nat) (body : String)
        (out : RequestOutcome) (st' : GoogleApiClientState),
        handleError parse cb apiType st status body = .done out st' →
        ((status = 429 ∨ status = 500 ∨ status = 503) → st'.retryCount = 0)
        ∧ (¬(status = 429 ∨ status = 500 ∨ status = 503) → st' = st))
    ∧ (∀ (responses : List Response) (st st' : GoogleApiClientState),
        GoogleApiClient.request parse cb apiType st responses = (.success, st') →
        st'.retryCount = 0) := by
  constructor
  · intro st status body out st' hE
    unfold handleError at hE
    by_cases h401 : status = HTTP_STATUS.UNAUTHORIZED
    · rw [if_pos h401] at hE
      have hstat : ¬(status = 429 ∨ status = 500 ∨ status = 503) := by
        rw [h401]; decide
      cases cb with
      | none =>
        injection hE with h1 h2
        exact ⟨fun hmem => absurd hmem hstat, fun _ => h2.symm⟩
      | some f => exact HandleErrorResult.noConfusion hE
    · rw [if_neg h401] at hE
      by_cases h429 : status = HTTP_STATUS.RATE_LIMITED
      · rw [if_pos h429] at hE
        split_ifs at hE
        injection hE with h1 h2
        refine ⟨fun _ => ?_, fun hmem => absurd (Or.inl h429) hmem⟩
        rw [← h2]
      · rw [if_neg h429] at hE
        by_cases h5xx : status = HTTP_STATUS.SERVER_ERROR ∨
            status = HTTP_STATUS.SERVICE_UNAVAILABLE
        · rw [if_pos h5xx] at hE
          split_ifs at hE
          injection hE with h1 h2
          refine ⟨fun _ => ?_, fun hmem => absurd (Or.inr h5xx) hmem⟩
          rw [← h2]
        · rw [if_neg h5xx] at hE
          injection hE with h1 h2
          have hstat : ¬(status = 429 ∨ status = 500 ∨ status = 503) := by
            intro hmem
            rcases hmem with hm | hm | hm
            · exact h429 hm
            · exact h5xx (Or.inl hm)
            · exact h5xx (Or.inr hm)
          exact ⟨fun hmem => absurd hmem hstat, fun _ => h2.symm⟩
  · intro responses
    induction responses with
    | nil =>
      intro st st' hR
      injection hR with h1 h2
      exact RequestOutcome.noConfusion h1
    | cons r rest ih =>
      intro st st' hR
      unfold GoogleApiClient.request at hR
      split_ifs at hR
      · injection hR with h1 h2
        rw [← h2]
      · split at hR
        · rename_i out st'' hh
          injection hR with h1 h2
          obtain ⟨e, he⟩ := handleError_done_thrown parse cb apiType
            { st with fetches := st.fetches + 1 } r.status r.body out st'' hh
          rw [he] at h1
          exact RequestOutcome.noConfusion h1
        · rename_i st'' hh
          exact ih st'' st' hR

/-- Witness for C3 (amended) at a concrete budget-exhausted 429 and a
concrete successful run. -/
theorem c3_counter_reset_amended_witness :
    (GoogleApiClientState.mk "t" 0 0 [none] 2).retryCount = 0
    ∧ (GoogleApiClientState.mk "t" 0 0 [] 1).retryCount = 0 :=
  ⟨((c3_counter_reset_amended parseNone none .drive).1
      (GoogleApiClientState.mk "t" 3 0 [none] 2) 429 ""
      (.thrown (RateLimitError none "Max retries exceeded for rate limit"))
      (GoogleApiClientState.mk "t" 0 0 [none] 2) rfl).1 (Or.inl rfl),
   (c3_counter_reset_amended parseNone none .drive).2 [⟨200, "ok"⟩]
      (GoogleApiClient.init "t") (GoogleApiClientState.mk "t" 0 0 [] 1) rfl⟩

/-! ## Claim C4 -/

/-- C4: from a fresh client, consecutive 429 responses are retried exactly
`maxRetries = 3` times (three hint-free backoffs, four transport calls),
after which the pipeline throws `RateLimitError` instead of retrying a
fourth time, whatever further 429s the transport would supply; and in any
state whose retry counter has reached the maximum, a 429 terminates at
once with that `RateLimitError`, zeroing the counter. -/
theorem c4_rate_limit_retry_budget :
    (∀ (parse : String → Option GoogleApiErrorResponse)
        (cb : Option (Nat → String)) (apiType : ApiType) (tok : String) (n : Nat),
        GoogleApiClient.request parse cb apiType (GoogleApiClient.init tok)
          (List.replicate (n + 4) ⟨429, ""⟩)
        = (.thrown (RateLimitError none "Max retries exceeded for rate limit"),
           { accessToken := tok, retryCount := 0, refreshCount := 0,
             backoffArgs := [none, none, none], fetches := 4 }))
    ∧ (∀ (parse : String → Option GoogleApiErrorResponse)
        (cb : Option (Nat → String)) (apiType : ApiType)
        (st : GoogleApiClientState) (body : String),
        RETRY_CONFIG.maxRetries ≤ st.retryCount →
        handleError parse cb apiType st 429 body
        = .done (.thrown (RateLimitError none "Max retries exceeded for rate limit"))
            { st with retryCount := 0 }) := by
  constructor
  · intro parse cb apiType tok n
    rfl
  · intro parse cb apiType st body h
    unfold handleError
    rw [if_neg (show ¬(429 : Nat) = HTTP_STATUS.UNAUTHORIZED by decide),
      if_pos (show (429 : Nat) = HTTP_STATUS.RATE_LIMITED from rfl), if_pos h]

/-- Witness for C4 at a concrete state with the budget spent. -/
theorem c4_rate_limit_retry_budget_witness :
    GoogleApiClient.request parseNone none .drive (GoogleApiClient.init "w")
      (List.replicate 4 ⟨429, ""⟩)
    = (.thrown (RateLimitError none "Max retries exceeded for rate limit"),
       { accessToken := "w", retryCount := 0, refreshCount := 0,
         backoffArgs := [none, none, none], fetches := 4 })
    ∧ handleError parseNone none .drive (GoogleApiClientState.mk "w" 3 0 [] 0) 429 ""
    = .done (.thrown (RateLimitError none "Max retries exceeded for rate limit"))
        (GoogleApiClientState.mk "w" 0 0 [] 0) :=
  ⟨c4_rate_limit_retry_budget.1 parseNone none .drive "w" 0,
   c4_rate_limit_retry_budget.2 parseNone none .drive
     (GoogleApiClientState.mk "w" 3 0 [] 0) "" (by decide)⟩

/-! ## Claim C6 -/

/-- Replenishment formula as worded by the spec:
`min(burstSize, tokens + elapsedMs * (requestsPerUserPerMinute / windowMs))`.
Stated separately from `RateLimiter.refillTokens` so the code can be
compared against the spec's formula. -/
def specReplenish (cfg : RateLimitConfig) (tokens lastRefill now : ℚ) : ℚ :=
  min cfg.burstSize
    (tokens + (now - lastRefill) * (cfg.requestsPerUserPerMinute / cfg.windowMs))

/-- The bucket of the spec's worked example: `burstSize = 5`,
`requestsPerUserPerMinute = 60` over a 60000 ms window. -/
def exampleBucketConfig : RateLimitConfig :=
  { requestsPerMinute := 60, requestsPerUserPerMinute := 60,
    burstSize := 5, windowMs := 60000 }

/-- C6: `refillTokens` computes exactly the spec formula
`min(burstSize, tokens + elapsed * (requestsPerUserPerMinute / windowMs))`,
and on the example bucket (burst 5, 60 requests per user per 60000 ms),
exhausting all 5 tokens at time 0 and reading the count at time 1000 ms
yields exactly 1 token. -/
theorem c6_refill_formula_and_example :
    (∀ (rl : RateLimiter) (now : ℚ),
        (rl.refillTokens now).state.tokens
          = specReplenish rl.config rl.state.tokens rl.state.lastRefill now)
    ∧ (let rl0 := RateLimiter.new exampleBucketConfig 0
       let rl5 := (((((rl0.tryAcquire 0).2.tryAcquire 0).2.tryAcquire 0).2.tryAcquire
         0).2.tryAcquire 0).2
       rl5.state.tokens = 0 ∧ (rl5.getTokenCount 1000).1 = 1) := by
  refine ⟨fun rl now => rfl, ?_, ?_⟩ <;>
    norm_num [RateLimiter.new, RateLimiter.tryAcquire, RateLimiter.isInBackoff,
      RateLimiter.refillTokens, RateLimiter.tokensPerMs, RateLimiter.getTokenCount,
      exampleBucketConfig]

/-! ## Claim C7 -/

/-- The exponential delay as a function of the attempt counter:
`calculateBackoffDelay` of a limiter whose counter is `a`. -/
def calcDelayAt (a : Nat) : ℚ :=
  min (RETRY_CONFIG.initialBackoffMs * RETRY_CONFIG.backoffMultiplier ^ a)
    RETRY_CONFIG.maxBackoffMs

/-- C7: a first no-hint `backoff` from a fresh state (attempt counter 0)
sleeps `initialBackoffMs * multiplier` plus jitter of at most 10% of that
base; a second consecutive no-hint `backoff` without a reset uses base
delay `initialBackoffMs * multiplier ^ 2`, strictly larger; and in general
the base delay grows strictly with each attempt until it reaches
`maxBackoffMs`. -/
theorem c7_backoff_delay_growth (rl : RateLimiter) (now now2 r r2 : ℚ)
    (h0 : rl.currentBackoffAttempt = 0) (hr0 : 0 ≤ r) (hr1 : r < 1) :
    ((rl.backoff now none r).1
      = RETRY_CONFIG.initialBackoffMs * RETRY_CONFIG.backoffMultiplier
        + (RETRY_CONFIG.initialBackoffMs * RETRY_CONFIG.backoffMultiplier)
          * RETRY_CONFIG.jitterFactor * r)
    ∧ (RETRY_CONFIG.initialBackoffMs * RETRY_CONFIG.backoffMultiplier
        ≤ (rl.backoff now none r).1
      ∧ (rl.backoff now none r).1
        ≤ RETRY_CONFIG.initialBackoffMs * RETRY_CONFIG.backoffMultiplier
          + (RETRY_CONFIG.initialBackoffMs * RETRY_CONFIG.backoffMultiplier) / 10)
    ∧ (((rl.backoff now none r).2.backoff now2 none r2).1
        = calcDelayAt 2 + calcDelayAt 2 * RETRY_CONFIG.jitterFactor * r2
      ∧ calcDelayAt 1 < calcDelayAt 2)
    ∧ (∀ a : Nat, calcDelayAt a < RETRY_CONFIG.maxBackoffMs →
        calcDelayAt a < calcDelayAt (a + 1)) := by
  have hb : (rl.backoff now none r).1 = 2000 + 200 * r := by
    simp only [RateLimiter.backoff, RateLimiter.calculateBackoffDelay, h0,
      RETRY_CONFIG.initialBackoffMs, RETRY_CONFIG.backoffMultiplier,
      RETRY_CONFIG.maxBackoffMs, RETRY_CONFIG.jitterFactor, Option.getD]
    norm_num
  have hb2 : ((rl.backoff now none r).2.backoff now2 none r2).1 = 4000 + 400 * r2 := by
    simp only [RateLimiter.backoff, RateLimiter.calculateBackoffDelay, h0,
      RETRY_CONFIG.initialBackoffMs, RETRY_CONFIG.backoffMultiplier,
      RETRY_CONFIG.maxBackoffMs, RETRY_CONFIG.jitterFactor, Option.getD]
    norm_num
  have hces : calcDelayAt 1 = 2000 ∧ calcDelayAt 2 = 4000 := by
    constructor <;>
      · rw [calcDelayAt]
        norm_num [RETRY_CONFIG.initialBackoffMs, RETRY_CONFIG.backoffMultiplier,
          RETRY_CONFIG.maxBackoffMs]
  refine ⟨?_, ⟨?_, ?_⟩, ⟨?_, by rw [hces.1, hces.2]; norm_num⟩, ?_⟩
  · rw [hb]
    simp only [RETRY_CONFIG.initialBackoffMs, RETRY_CONFIG.backoffMultiplier,
      RETRY_CONFIG.jitterFactor]
    ring
  · rw [hb]
    simp only [RETRY_CONFIG.initialBackoffMs, RETRY_CONFIG.backoffMultiplier]
    nlinarith
  · rw [hb]
    simp only [RETRY_CONFIG.initialBackoffMs, RETRY_CONFIG.backoffMultiplier]
    nlinarith
  · rw [hb2]
    rw [hces.2]
    simp only [RETRY_CONFIG.jitterFactor]
    ring
  · intro a ha
    have hX : RETRY_CONFIG.initialBackoffMs * RETRY_CONFIG.backoffMultiplier ^ a
        < RETRY_CONFIG.maxBackoffMs := by
      by_contra hcon
      push_neg at hcon
      rw [calcDelayAt, min_eq_right hcon] at ha
      exact lt_irrefl _ ha
    have hpos : 0 < RETRY_CONFIG.initialBackoffMs * RETRY_CONFIG.backoffMultiplier ^ a := by
      simp only [RETRY_CONFIG.initialBackoffMs, RETRY_CONFIG.backoffMultiplier]
      positivity
    have h2 : RETRY_CONFIG.initialBackoffMs * RETRY_CONFIG.backoffMultiplier ^ (a + 1)
        = (RETRY_CONFIG.initialBackoffMs * RETRY_CONFIG.backoffMultiplier ^ a) * 2 := by
      simp only [RETRY_CONFIG.backoffMultiplier]
      ring
    rw [calcDelayAt, calcDelayAt, min_eq_left hX.le, h2]
    refine lt_min ?_ hX
    linarith

/-- Witness for C7 at a fresh limiter and a concrete random draw 1/2. -/
theorem c7_backoff_delay_growth_witness :
    ((RateLimiter.new exampleBucketConfig 0).backoff 0 none (1/2)).1
      = RETRY_CONFIG.initialBackoffMs * RETRY_CONFIG.backoffMultiplier
        + (RETRY_CONFIG.initialBackoffMs * RETRY_CONFIG.backoffMultiplier)
          * RETRY_CONFIG.jitterFactor * (1/2)
    ∧ calcDelayAt 1 < calcDelayAt 2 :=
  ⟨(c7_backoff_delay_growth (RateLimiter.new exampleBucketConfig 0) 0 0 (1/2) 0
      rfl (by norm_num) (by norm_num)).1,
   (c7_backoff_delay_growth (RateLimiter.new exampleBucketConfig 0) 0 0 (1/2) 0
      rfl (by norm_num) (by norm_num)).2.2.1.2⟩

/-! ## Claim C5 -/

/-- An operation on a `RateLimiter`, tagged with the nonnegative time that
elapses before it is invoked (`delta`, in ms).  `acquireOp` carries fuel
bounding its internal sleep-and-retry loop; `backoffOp` carries the
optional hint and the random jitter draw; `getStatsOp` is the diagnostics
read (whose `getTokenCount` refills, hence mutates). -/
inductive RLOp where
  | tryAcquireOp (delta : ℚ)
  | acquireOp (delta : ℚ) (fuel : Nat)
  | backoffOp (delta : ℚ) (hint : Option ℚ) (rand : ℚ)
  | resetBackoffOp (delta : ℚ)
  | getStatsOp (delta : ℚ)

/-- The elapsed time an operation carries. -/
def RLOp.delta : RLOp → ℚ
  | .tryAcquireOp d => d
  | .acquireOp d _ => d
  | .backoffOp d _ _ => d
  | .resetBackoffOp d => d
  | .getStatsOp d => d

/-- Apply one operation at the current wall clock `now`, returning the new
wall clock (operations that sleep advance it further) and limiter. -/
def applyOp (now : ℚ) (rl : RateLimiter) : RLOp → ℚ × RateLimiter
  | .tryAcquireOp d => (now + d, (rl.tryAcquire (now + d)).2)
  | .acquireOp d fuel =>
    let a := RateLimiter.acquireGo fuel rl (now + d)
    (a.1, a.2.1)
  | .backoffOp d hint rand =>
    let b := rl.backoff (now + d) hint rand
    (now + d + max 0 b.1, b.2)
  | .resetBackoffOp d => (now + d, rl.resetBackoff)
  | .getStatsOp d => (now + d, (rl.getStats (now + d)).2)

/-- Run a sequence of operations from a wall clock and limiter state. -/
def runOps : ℚ → RateLimiter → List RLOp → ℚ × RateLimiter
  | now, rl, [] => (now, rl)
  | now, rl, op :: ops =>
    let p := applyOp now rl op
    runOps p.1 p.2 ops

/-- Sanity conditions on a configuration (every configuration in
constants.ts and every sensible override satisfies them). -/
def GoodConfig (cfg : RateLimitConfig) : Prop :=
  0 ≤ cfg.burstSize ∧ 0 ≤ cfg.requestsPerUserPerMinute ∧ 0 ≤ cfg.windowMs

/-- The limiter invariant at wall clock `now`: token count within
`[0, burstSize]` and the refill stamp not in the future. -/
def RateLimiter.Inv (rl : RateLimiter) (now : ℚ) : Prop :=
  0 ≤ rl.state.tokens ∧ rl.state.tokens ≤ rl.config.burstSize
    ∧ rl.state.lastRefill ≤ now

theorem tokensPerMs_nonneg (rl : RateLimiter) (hg : GoodConfig rl.config) :
    0 ≤ rl.tokensPerMs :=
  div_nonneg hg.2.1 hg.2.2


theorem refill_config (rl : RateLimiter) (now : ℚ) :
    (rl.refillTokens now).config = rl.config := rfl

theorem refill_bounds (rl : RateLimiter) (now now' : ℚ)
    (hg : GoodConfig rl.config) (hI : rl.Inv now) (hle : now ≤ now') :
    0 ≤ (rl.refillTokens now').state.tokens
    ∧ (rl.refillTokens now').state.tokens ≤ rl.config.burstSize
    ∧ (rl.refillTokens now').state.lastRefill = now' := by
  obtain ⟨h0, hb, hlr⟩ := hI
  have hrate : 0 ≤ rl.tokensPerMs := tokensPerMs_nonneg rl hg
  have helap : 0 ≤ (now' - rl.state.lastRefill) * rl.tokensPerMs :=
    mul_nonneg (by linarith) hrate
  refine ⟨?_, ?_, rfl⟩
  · show 0 ≤ min rl.config.burstSize
      (rl.state.tokens + (now' - rl.state.lastRefill) * rl.tokensPerMs)
    exact le_min hg.1 (by linarith)
  · show min rl.config.burstSize
      (rl.state.tokens + (now' - rl.state.lastRefill) * rl.tokensPerMs)
      ≤ rl.config.burstSize
    exact min_le_left _ _

theorem refillTokens_inv (rl : RateLimiter) (now now' : ℚ)
    (hg : GoodConfig rl.config) (hI : rl.Inv now) (hle : now ≤ now') :
    (rl.refillTokens now').Inv now' := by
  obtain ⟨a, b, c⟩ := refill_bounds rl now now' hg hI hle
  exact ⟨a, b, le_of_eq c⟩

theorem tryAcquire_inv (rl : RateLimiter) (now : ℚ)
    (hg : GoodConfig rl.config) (hI : rl.Inv now) :
    ((rl.tryAcquire now).2.Inv now) ∧ (rl.tryAcquire now).2.config = rl.config := by
  obtain ⟨a, b, c⟩ := refill_bounds rl now now hg hI (le_refl _)
  by_cases hback : rl.isInBackoff now = true
  · have heq : rl.tryAcquire now = (false, rl) := by
      simp only [RateLimiter.tryAcquire, if_pos hback]
    rw [heq]
    exact ⟨hI, rfl⟩
  · by_cases htok : 1 ≤ (rl.refillTokens now).state.tokens
    · have heq : rl.tryAcquire now =
          (true, { rl.refillTokens now with
            state := { (rl.refillTokens now).state with
              tokens := (rl.refillTokens now).state.tokens - 1 } }) := by
        simp only [RateLimiter.tryAcquire, if_neg hback, if_pos htok]
      rw [heq]
      exact ⟨⟨by simp; linarith, by simp [refill_config]; linarith, by simp [c]⟩, rfl⟩
    · have heq : rl.tryAcquire now = (false, rl.refillTokens now) := by
        simp only [RateLimiter.tryAcquire, if_neg hback, if_neg htok]
      rw [heq]
      exact ⟨⟨a, b, le_of_eq c⟩, rfl⟩

theorem acquireGo_inv : ∀ (fuel : Nat) (rl : RateLimiter) (now : ℚ),
    GoodConfig rl.config → rl.Inv now →
    ((RateLimiter.acquireGo fuel rl now).2.1.Inv (RateLimiter.acquireGo fuel rl now).1)
    ∧ (RateLimiter.acquireGo fuel rl now).2.1.config = rl.config
  | 0, rl, now, _, hI => ⟨hI, rfl⟩
  | fuel + 1, rl, now, hg, hI => by
    have hwait : now ≤ now + rl.getRemainingBackoff now := by
      have h0 : (0:ℚ) ≤ rl.getRemainingBackoff now := le_max_left _ _
      linarith
    obtain ⟨a, b, c⟩ := refill_bounds rl now (now + rl.getRemainingBackoff now) hg hI hwait
    by_cases htok : 1 ≤ (rl.refillTokens (now + rl.getRemainingBackoff now)).state.tokens
    · have heq : RateLimiter.acquireGo (fuel + 1) rl now =
          (now + rl.getRemainingBackoff now,
           { rl.refillTokens (now + rl.getRemainingBackoff now) with
             state := { (rl.refillTokens (now + rl.getRemainingBackoff now)).state with
               tokens := (rl.refillTokens (now + rl.getRemainingBackoff now)).state.tokens
                 - 1 } },
           true) := by
        simp only [RateLimiter.acquireGo, if_pos htok]
      rw [heq]
      exact ⟨⟨by simp; linarith, by simp [refill_config]; linarith, by simp [c]⟩, rfl⟩
    · have heq : RateLimiter.acquireGo (fuel + 1) rl now =
          RateLimiter.acquireGo fuel (rl.refillTokens (now + rl.getRemainingBackoff now))
            (now + rl.getRemainingBackoff now
              + max 0 (rl.refillTokens (now + rl.getRemainingBackoff now)).calculateWaitTime) := by
        simp only [RateLimiter.acquireGo, if_neg htok]
      rw [heq]
      have hmax : (0:ℚ) ≤ max 0
          (rl.refillTokens (now + rl.getRemainingBackoff now)).calculateWaitTime :=
        le_max_left _ _
      have hI2 : (rl.refillTokens (now + rl.getRemainingBackoff now)).Inv
          (now + rl.getRemainingBackoff now
            + max 0 (rl.refillTokens (now + rl.getRemainingBackoff now)).calculateWaitTime) :=
        ⟨a, b, by rw [c]; linarith⟩
      have hrec := acquireGo_inv fuel (rl.refillTokens (now + rl.getRemainingBackoff now))
        (now + rl.getRemainingBackoff now
          + max 0 (rl.refillTokens (now + rl.getRemainingBackoff now)).calculateWaitTime)
        hg hI2
      exact ⟨hrec.1, hrec.2⟩

theorem applyOp_inv (now : ℚ) (rl : RateLimiter) (op : RLOp)
    (hg : GoodConfig rl.config) (hI : rl.Inv now) (hd : 0 ≤ op.delta) :
    ((applyOp now rl op).2.Inv (applyOp now rl op).1)
    ∧ (applyOp now rl op).2.config = rl.config := by
  have hshift : ∀ d : ℚ, 0 ≤ d → rl.Inv (now + d) := by
    intro d hd0
    exact ⟨hI.1, hI.2.1, by linarith [hI.2.2]⟩
  cases op with
  | tryAcquireOp d =>
    simp only [RLOp.delta] at hd
    exact tryAcquire_inv rl (now + d) hg (hshift d hd)
  | acquireOp d fuel =>
    simp only [RLOp.delta] at hd
    exact acquireGo_inv fuel rl (now + d) hg (hshift d hd)
  | backoffOp d hint rand =>
    simp only [RLOp.delta] at hd
    have hI' := hshift d hd
    have heq : applyOp now rl (.backoffOp d hint rand)
        = (now + d + max 0 (rl.backoff (now + d) hint rand).1,
           (rl.backoff (now + d) hint rand).2) := by
      simp only [applyOp]
    rw [heq]
    refine ⟨⟨hI'.1, hI'.2.1, ?_⟩, rfl⟩
    have hmax : (0:ℚ) ≤ max 0 (rl.backoff (now + d) hint rand).1 := le_max_left _ _
    have hlr := hI'.2.2
    show rl.state.lastRefill ≤ now + d + max 0 (rl.backoff (now + d) hint rand).1
    linarith
  | resetBackoffOp d =>
    simp only [RLOp.delta] at hd
    have hI' := hshift d hd
    exact ⟨⟨hI'.1, hI'.2.1, hI'.2.2⟩, rfl⟩
  | getStatsOp d =>
    simp only [RLOp.delta] at hd
    exact ⟨refillTokens_inv rl now (now + d) hg hI (by linarith), rfl⟩

theorem runOps_inv : ∀ (ops : List RLOp) (now : ℚ) (rl : RateLimiter),
    GoodConfig rl.config → rl.Inv now → (∀ op ∈ ops, 0 ≤ op.delta) →
    ((runOps now rl ops).2.Inv (runOps now rl ops).1)
    ∧ (runOps now rl ops).2.config = rl.config
  | [], _, _, _, hI, _ => ⟨hI, rfl⟩
  | op :: ops, now, rl, hg, hI, hd => by
    have hstep := applyOp_inv now rl op hg hI (hd op (List.mem_cons_self op ops))
    have hrest := runOps_inv ops (applyOp now rl op).1 (applyOp now rl op).2
      (hstep.2 ▸ hg) hstep.1 (fun o ho => hd o (List.mem_cons_of_mem op ho))
    simp only [runOps]
    exact ⟨hrest.1, hrest.2.trans hstep.2⟩

/-- C5: under any sequence of limiter operations (`tryAcquire`, fuelled
`acquire`, `backoff` with arbitrary hint and jitter draw, `resetBackoff`,
stats reads) with nonnegative inter-operation delays (a non-decreasing time
source), the token count of a freshly constructed limiter stays within
`[0, burstSize]` at every observation point (the statement quantifies over
all operation lists, hence over every prefix of a run): a token is consumed
only behind the `1 ≤ tokens` guard and replenishment is capped at
`burstSize`. -/
theorem c5_token_bounds_invariant (cfg : RateLimitConfig) (now0 : ℚ)
    (ops : List RLOp) (hg : GoodConfig cfg)
    (hd : ∀ op ∈ ops, 0 ≤ op.delta) :
    0 ≤ (runOps now0 (RateLimiter.new cfg now0) ops).2.state.tokens
    ∧ (runOps now0 (RateLimiter.new cfg now0) ops).2.state.tokens ≤ cfg.burstSize := by
  have hI0 : (RateLimiter.new cfg now0).Inv now0 := ⟨hg.1, le_refl _, le_refl _⟩
  have h := runOps_inv ops now0 (RateLimiter.new cfg now0) hg hI0 hd
  have hc : (runOps now0 (RateLimiter.new cfg now0) ops).2.config = cfg := h.2
  exact ⟨h.1.1, le_of_le_of_eq h.1.2.1 (congrArg RateLimitConfig.burstSize hc)⟩

/-- Witness for C5 on the example bucket with a mixed concrete op list. -/
theorem c5_token_bounds_invariant_witness :
    0 ≤ (runOps 0 (RateLimiter.new exampleBucketConfig 0)
      [.tryAcquireOp 0, .backoffOp 1 none (1/2), .tryAcquireOp 2,
       .resetBackoffOp 0, .acquireOp 5 3, .getStatsOp 3]).2.state.tokens
    ∧ (runOps 0 (RateLimiter.new exampleBucketConfig 0)
      [.tryAcquireOp 0, .backoffOp 1 none (1/2), .tryAcquireOp 2,
       .resetBackoffOp 0, .acquireOp 5 3, .getStatsOp 3]).2.state.tokens
      ≤ exampleBucketConfig.burstSize :=
  c5_token_bounds_invariant exampleBucketConfig 0
    [.tryAcquireOp 0, .backoffOp 1 none (1/2), .tryAcquireOp 2,
     .resetBackoffOp 0, .acquireOp 5 3, .getStatsOp 3]
    (by refine ⟨?_, ?_, ?_⟩ <;> norm_num [exampleBucketConfig])
    (by
      intro op hop
      simp only [List.mem_cons, List.not_mem_nil, or_false] at hop
      rcases hop with rfl | rfl | rfl | rfl | rfl | rfl <;> norm_num [RLOp.delta])

/-! ## Auto-paginating listings (C8)

`GoogleDriveClient.listAllFiles` (drive client, lines 208-232) and
`GoogleCalendarClient.listAllEvents` (calendar/index.ts lines 152-176) run
the identical do/while loop; it is factored here as `paginateAll` over the
sequence of pages the server would return to successive fetches.  JS
truthiness is modelled exactly: the loop continues while the page token is
a present, non-empty string (`tokenTruthy`), and the cap check
`if (maxResults && length >= maxResults)` treats both an absent cap and a
cap of `0` as falsy (`capTruthy`).  The result also carries the number of
pages fetched. -/

/-- One page of a paginated listing response (`files`/`items` plus
`nextPageToken`). -/
structure PageResponse (α : Type) where
  items : List α
  nextPageToken : Option String
deriving DecidableEq, Repr

/-- JS truthiness of the `nextPageToken` field (`undefined` and the empty
string are falsy). -/
def tokenTruthy : Option String → Bool
  | none => false
  | some s => decide (¬ s = "")

/-- JS truthiness of the `maxResults` argument (`undefined` and `0` are
falsy). -/
def capTruthy : Option Nat → Bool
  | none => false
  | some m => decide (¬ m = 0)

/-- The shared do/while pagination loop: fetch the next page, append its
items, return `slice(0, maxResults)` once the cap check fires, stop when
the token is falsy.  Also counts fetched pages. -/
def paginateAll {α : Type} : List (PageResponse α) → List α → Option Nat → List α × Nat
  | [], acc, _ => (acc, 0)
  | p :: rest, acc, maxResults =>
    if capTruthy maxResults && decide (maxResults.getD 0 ≤ (acc ++ p.items).length) then
      ((acc ++ p.items).take (maxResults.getD 0), 1)
    else if tokenTruthy p.nextPageToken then
      ((paginateAll rest (acc ++ p.items) maxResults).1,
       (paginateAll rest (acc ++ p.items) maxResults).2 + 1)
    else (acc ++ p.items, 1)

/-- Drive file item (only identity matters for the pagination claims). -/
structure DriveFile where
  id : String
deriving DecidableEq, Repr

/-- Calendar event item. -/
structure CalendarEvent where
  id : String
deriving DecidableEq, Repr

/-- `GoogleDriveClient.listAllFiles` against a server page sequence. -/
def GoogleDriveClient.listAllFiles (pages : List (PageResponse DriveFile))
    (maxResults : Option Nat := none) : List DriveFile × Nat :=
  paginateAll pages [] maxResults

/-- `GoogleCalendarClient.listAllEvents` against a server page sequence. -/
def GoogleCalendarClient.listAllEvents (pages : List (PageResponse CalendarEvent))
    (maxResults : Option Nat := none) : List CalendarEvent × Nat :=
  paginateAll pages [] maxResults

/-- The pages the uncapped loop consumes: everything up to and including
the first page whose next-page token is falsy. -/
def pagesUntilStop {α : Type} : List (PageResponse α) → List (PageResponse α)
  | [] => []
  | p :: rest => p :: (if tokenTruthy p.nextPageToken then pagesUntilStop rest else [])

/-- All items of a page list, in order. -/
def itemsOf {α : Type} (pages : List (PageResponse α)) : List α :=
  (pages.map PageResponse.items).flatten

theorem paginateAll_none {α : Type} : ∀ (pages : List (PageResponse α)) (acc : List α),
    paginateAll pages acc none
      = (acc ++ itemsOf (pagesUntilStop pages), (pagesUntilStop pages).length)
  | [], acc => by simp [paginateAll, pagesUntilStop, itemsOf]
  | p :: rest, acc => by
    by_cases ht : tokenTruthy p.nextPageToken = true
    · simp [paginateAll, pagesUntilStop, itemsOf, capTruthy, ht,
        paginateAll_none rest (acc ++ p.items), List.append_assoc]
    · simp [paginateAll, pagesUntilStop, itemsOf, capTruthy, ht]

theorem paginateAll_cap_take {α : Type} :
    ∀ (pages : List (PageResponse α)) (acc : List α) (m : Nat),
    0 < m → acc.length < m →
    (paginateAll pages acc (some m)).1 = (paginateAll pages acc none).1.take m
  | [], acc, m, _, hacc => by
    simp [paginateAll]
    omega
  | p :: rest, acc, m, hm, hacc => by
    have hm0 : ¬ m = 0 := Nat.pos_iff_ne_zero.mp hm
    have hlen := List.length_append acc p.items
    by_cases hcap : m ≤ (acc ++ p.items).length
    · have hcap' : m ≤ acc.length + p.items.length := hlen ▸ hcap
      have hLHS : (paginateAll (p :: rest) acc (some m)).1 = (acc ++ p.items).take m := by
        simp [paginateAll, capTruthy, hm0, hcap']
      rw [hLHS]
      by_cases ht : tokenTruthy p.nextPageToken = true
      · have hRHS : (paginateAll (p :: rest) acc none).1
            = (acc ++ p.items) ++ itemsOf (pagesUntilStop rest) := by
          rw [paginateAll_none]
          simp [pagesUntilStop, itemsOf, ht, List.append_assoc]
        rw [hRHS, List.take_append_of_le_length hcap]
      · have hRHS : (paginateAll (p :: rest) acc none).1 = acc ++ p.items := by
          rw [paginateAll_none]
          simp [pagesUntilStop, itemsOf, ht]
        rw [hRHS]
    · push_neg at hcap
      have hcap' : ¬ m ≤ acc.length + p.items.length := by
        rw [← hlen]
        exact Nat.not_le.mpr hcap
      by_cases ht : tokenTruthy p.nextPageToken = true
      · have hL : (paginateAll (p :: rest) acc (some m)).1
            = (paginateAll rest (acc ++ p.items) (some m)).1 := by
          simp [paginateAll, capTruthy, hm0, ht, hcap']
        have hR : (paginateAll (p :: rest) acc none).1
            = (paginateAll rest (acc ++ p.items) none).1 := by
          simp [paginateAll, capTruthy, ht]
        rw [hL, hR]
        exact paginateAll_cap_take rest (acc ++ p.items) m hm hcap
      · have hL : (paginateAll (p :: rest) acc (some m)).1 = acc ++ p.items := by
          simp [paginateAll, capTruthy, hm0, ht, hcap']
        have hR : (paginateAll (p :: rest) acc none).1 = acc ++ p.items := by
          simp [paginateAll, capTruthy, ht]
        rw [hL, hR, List.take_of_length_le (le_of_lt hcap)]

theorem paginateAll_cap_fetch {α : Type} :
    ∀ (pages : List (PageResponse α)) (acc : List α) (m : Nat),
    0 < m → acc.length < m → 1 ≤ (paginateAll pages acc (some m)).2 →
    acc.length + (itemsOf (pages.take ((paginateAll pages acc (some m)).2 - 1))).length < m
  | [], acc, m, _, _, hfetch => by simp [paginateAll] at hfetch
  | p :: rest, acc, m, hm, hacc, hfetch => by
    have hm0 : ¬ m = 0 := Nat.pos_iff_ne_zero.mp hm
    have hlen := List.length_append acc p.items
    by_cases hcap : m ≤ (acc ++ p.items).length
    · have hcap' : m ≤ acc.length + p.items.length := hlen ▸ hcap
      have h2 : (paginateAll (p :: rest) acc (some m)).2 = 1 := by
        simp [paginateAll, capTruthy, hm0, hcap']
      rw [h2]
      simpa [itemsOf] using hacc
    · push_neg at hcap
      have hcap' : ¬ m ≤ acc.length + p.items.length := by
        rw [← hlen]
        exact Nat.not_le.mpr hcap
      by_cases ht : tokenTruthy p.nextPageToken = true
      · have h2 : (paginateAll (p :: rest) acc (some m)).2
            = (paginateAll rest (acc ++ p.items) (some m)).2 + 1 := by
          simp [paginateAll, capTruthy, hm0, ht, hcap']
        rw [h2]
        cases hk : (paginateAll rest (acc ++ p.items) (some m)).2 with
        | zero => simpa [itemsOf] using hacc
        | succ k =>
          have hrec := paginateAll_cap_fetch rest (acc ++ p.items) m hm hcap
            (by rw [hk]; exact Nat.succ_le_succ (Nat.zero_le k))
          rw [hk] at hrec
          simp only [Nat.add_sub_cancel] at hrec
          simp only [Nat.add_sub_cancel, List.take_succ_cons, itemsOf, List.map_cons,
            List.flatten_cons, List.length_append]
          simp only [itemsOf] at hrec
          omega
      · have h2 : (paginateAll (p :: rest) acc (some m)).2 = 1 := by
          simp [paginateAll, capTruthy, hm0, ht, hcap']
        rw [h2]
        simpa [itemsOf] using hacc

/-! ## Claim C8 -/

/-- C8 (counterexample): the claim says that when a maximum-results cap is
given the listing returns exactly the first `maxResults` items; but with
the cap `0` supplied, the JS guard `if (maxResults && ...)` is falsy, so
the whole listing (here 1 item, not 0) is returned. -/
theorem c8_zero_cap_counterexample :
    (GoogleDriveClient.listAllFiles
      [{ items := [{ id := "f1" }], nextPageToken := none }] (some 0)).1.length = 1 := rfl

/-- C8 (amended): for both auto-paginating listings, (a) without a cap the
loop consumes exactly the pages up to and including the first page whose
next-page token is falsy and returns their concatenated items; (b) with a
positive cap `m` the result is exactly the first `m` of the uncapped
listing (all of it when fewer arrive); (c) with a positive cap, every page
except possibly the last one fetched began strictly below the cap — the
loop never fetches again once the cap is reached. -/
theorem c8_pagination_amended :
    (∀ pages : List (PageResponse DriveFile),
        GoogleDriveClient.listAllFiles pages none
          = (itemsOf (pagesUntilStop pages), (pagesUntilStop pages).length))
    ∧ (∀ (pages : List (PageResponse DriveFile)) (m : Nat), 0 < m →
        (GoogleDriveClient.listAllFiles pages (some m)).1
          = (GoogleDriveClient.listAllFiles pages none).1.take m)
    ∧ (∀ (pages : List (PageResponse DriveFile)) (m : Nat), 0 < m →
        1 ≤ (GoogleDriveClient.listAllFiles pages (some m)).2 →
        (itemsOf (pages.take
          ((GoogleDriveClient.listAllFiles pages (some m)).2 - 1))).length < m)
    ∧ (∀ pages : List (PageResponse CalendarEvent),
        GoogleCalendarClient.listAllEvents pages none
          = (itemsOf (pagesUntilStop pages), (pagesUntilStop pages).length))
    ∧ (∀ (pages : List (PageResponse CalendarEvent)) (m : Nat), 0 < m →
        (GoogleCalendarClient.listAllEvents pages (some m)).1
          = (GoogleCalendarClient.listAllEvents pages none).1.take m)
    ∧ (∀ (pages : List (PageResponse CalendarEvent)) (m : Nat), 0 < m →
        1 ≤ (GoogleCalendarClient.listAllEvents pages (some m)).2 →
        (itemsOf (pages.take
          ((GoogleCalendarClient.listAllEvents pages (some m)).2 - 1))).length < m) := by
  refine ⟨fun pages => ?_, fun pages m hm => ?_, fun pages m hm hf => ?_,
    fun pages => ?_, fun pages m hm => ?_, fun pages m hm hf => ?_⟩
  · rw [GoogleDriveClient.listAllFiles, paginateAll_none]
    simp
  · exact paginateAll_cap_take pages [] m hm (by simpa using hm)
  · simpa using paginateAll_cap_fetch pages [] m hm (by simpa using hm) hf
  · rw [GoogleCalendarClient.listAllEvents, paginateAll_none]
    simp
  · exact paginateAll_cap_take pages [] m hm (by simpa using hm)
  · simpa using paginateAll_cap_fetch pages [] m hm (by simpa using hm) hf

/-- Witness for C8 (amended) at a concrete two-page run capped at 1. -/
theorem c8_pagination_amended_witness :
    (GoogleDriveClient.listAllFiles
      [{ items := [{ id := "a" }, { id := "b" }], nextPageToken := some "t" },
       { items := [{ id := "c" }], nextPageToken := none }] (some 1)).1
      = (GoogleDriveClient.listAllFiles
      [{ items := [{ id := "a" }, { id := "b" }], nextPageToken := some "t" },
       { items := [{ id := "c" }], nextPageToken := none }] none).1.take 1 :=
  c8_pagination_amended.2.1
    [{ items := [{ id := "a" }, { id := "b" }], nextPageToken := some "t" },
     { items := [{ id := "c" }], nextPageToken := none }] 1 (by decide)

/-! ## Claim C10 (GoogleDriveClient.downloadFile) -/

/-- What `downloadFile` can produce: the binary body on success, or a plain
untyped `Error` (just a message string, not a `GoogleApiError`). -/
inductive DownloadResult where
  | blob : String → DownloadResult
  | plainError : String → DownloadResult
deriving DecidableEq, Repr

/-- The template-literal message of the plain error thrown by
`downloadFile`: `Failed to download file: ${status} - ${body}`. -/
def downloadErrorMessage (r : Response) : String :=
  "Failed to download file: " ++ toString r.status ++ " - " ++ r.body

/-- Model of `GoogleDriveClient.downloadFile` (drive client, lines
262-282): acquire one rate-limit token (fuelled `acquireGo`), perform a
single fetch (one response, no loop), and either throw a plain `Error`
built from the status and body text (no `createApiError`, no refresh, no
backoff, no retry) or reset the backoff and return the body as a blob. -/
def GoogleDriveClient.downloadFile (rl : RateLimiter) (now : ℚ) (fuel : Nat)
    (r : Response) (blobContent : String) : DownloadResult × RateLimiter :=
  if r.ok then
    (.blob blobContent, (RateLimiter.acquireGo fuel rl now).2.1.resetBackoff)
  else
    (.plainError (downloadErrorMessage r), (RateLimiter.acquireGo fuel rl now).2.1)

/-- Helper: the acquire loop never touches the backoff bookkeeping (it only
waits it out): attempt counter and `backoffUntil` are preserved. -/
theorem acquireGo_preserves_backoff : ∀ (fuel : Nat) (rl : RateLimiter) (now : ℚ),
    (RateLimiter.acquireGo fuel rl now).2.1.currentBackoffAttempt
      = rl.currentBackoffAttempt
    ∧ (RateLimiter.acquireGo fuel rl now).2.1.state.backoffUntil
      = rl.state.backoffUntil
  | 0, rl, now => ⟨rfl, rfl⟩
  | fuel + 1, rl, now => by
    by_cases htok : 1 ≤ (rl.refillTokens (now + rl.getRemainingBackoff now)).state.tokens
    · have heq : RateLimiter.acquireGo (fuel + 1) rl now =
          (now + rl.getRemainingBackoff now,
           { rl.refillTokens (now + rl.getRemainingBackoff now) with
             state := { (rl.refillTokens (now + rl.getRemainingBackoff now)).state with
               tokens := (rl.refillTokens (now + rl.getRemainingBackoff now)).state.tokens
                 - 1 } },
           true) := by
        simp only [RateLimiter.acquireGo, if_pos htok]
      rw [heq]
      exact ⟨rfl, rfl⟩
    · have heq : RateLimiter.acquireGo (fuel + 1) rl now =
          RateLimiter.acquireGo fuel (rl.refillTokens (now + rl.getRemainingBackoff now))
            (now + rl.getRemainingBackoff now
              + max 0 (rl.refillTokens (now + rl.getRemainingBackoff now)).calculateWaitTime) := by
        simp only [RateLimiter.acquireGo, if_neg htok]
      rw [heq]
      have hrec := acquireGo_preserves_backoff fuel
        (rl.refillTokens (now + rl.getRemainingBackoff now))
        (now + rl.getRemainingBackoff now
          + max 0 (rl.refillTokens (now + rl.getRemainingBackoff now)).calculateWaitTime)
      exact ⟨hrec.1.trans rfl, hrec.2.trans rfl⟩

/-- C10: on any non-success status `downloadFile` returns the plain
template-literal error (never a typed `GoogleApiError`, so no
classification), with the rate limiter exactly as the single token
acquisition left it — backoff attempt counter and `backoffUntil`
untouched, no refresh, no retry (the definition performs one fetch); on
success it returns the blob after resetting the backoff state. -/
theorem c10_download_file_plain_error (rl : RateLimiter) (now : ℚ) (fuel : Nat)
    (r : Response) (blobContent : String) :
    (¬ r.ok →
      GoogleDriveClient.downloadFile rl now fuel r blobContent
        = (.plainError (downloadErrorMessage r), (RateLimiter.acquireGo fuel rl now).2.1)
      ∧ (GoogleDriveClient.downloadFile rl now fuel r blobContent).2.currentBackoffAttempt
          = rl.currentBackoffAttempt
      ∧ (GoogleDriveClient.downloadFile rl now fuel r blobContent).2.state.backoffUntil
          = rl.state.backoffUntil)
    ∧ (r.ok →
      GoogleDriveClient.downloadFile rl now fuel r blobContent
        = (.blob blobContent, (RateLimiter.acquireGo fuel rl now).2.1.resetBackoff)
      ∧ (GoogleDriveClient.downloadFile rl now fuel r blobContent).2.currentBackoffAttempt = 0
      ∧ (GoogleDriveClient.downloadFile rl now fuel r blobContent).2.state.backoffUntil = 0) := by
  constructor
  · intro hnok
    have heq : GoogleDriveClient.downloadFile rl now fuel r blobContent
        = (.plainError (downloadErrorMessage r), (RateLimiter.acquireGo fuel rl now).2.1) := by
      simp only [GoogleDriveClient.downloadFile, if_neg hnok]
    refine ⟨heq, ?_, ?_⟩
    · rw [heq]
      exact (acquireGo_preserves_backoff fuel rl now).1
    · rw [heq]
      exact (acquireGo_preserves_backoff fuel rl now).2
  · intro hok
    have heq : GoogleDriveClient.downloadFile rl now fuel r blobContent
        = (.blob blobContent, (RateLimiter.acquireGo fuel rl now).2.1.resetBackoff) := by
      simp only [GoogleDriveClient.downloadFile, if_pos hok]
    exact ⟨heq, by rw [heq]; rfl, by rw [heq]; rfl⟩

/-- Witness for C10 at a concrete 404 download. -/
theorem c10_download_file_plain_error_witness :
    GoogleDriveClient.downloadFile (RateLimiter.new exampleBucketConfig 0) 0 1
      ⟨404, "nope"⟩ "blob"
      = (.plainError (downloadErrorMessage ⟨404, "nope"⟩),
         (RateLimiter.acquireGo 1 (RateLimiter.new exampleBucketConfig 0) 0).2.1) :=
  ((c10_download_file_plain_error (RateLimiter.new exampleBucketConfig 0) 0 1
      ⟨404, "nope"⟩ "blob").1 (by decide)).1
